import Mathlib

/-!
Verification of `database_interface.py`: a minimal persistence layer that
saves and restores a single in-memory value ("the database") to timestamped
pickle files on disk, tracking the most recent save via a single-line
pointer file.

The embedding is a shallow one: Python values are modelled by the inductive
type `PyVal` (with `PyVal.none` playing the role of Python's `None`
object), the local filesystem by an association list from path strings to
file contents, and every method of the `DatabaseInterface` class by a pure
function that threads the interface state and the filesystem explicitly.
Pickle serialization is full-fidelity on these values, so a record file
simply stores the `PyVal` it was written with.  Exceptions are modelled by
`PyError`; methods that can both mutate state and raise return the mutated
state together with an `Option PyError` / `Except PyError` result,
mirroring the fact that in Python the attribute mutations performed before
a raise survive the raise.
-/

set_option autoImplicit false

/-- A Python value, as far as this program can observe one.  `PyVal.none`
models the `None` singleton; `dictNil`/`dictCons` spell out a dictionary
with string keys entry by entry (the shape used by the repository's own
example: `dictCons "wow" (str "haha") dictNil` is `{"wow": "haha"}`).
Pickle round-trips all of these exactly, which is what the model relies
on. -/
inductive PyVal where
  | none
  | bool (b : Bool)
  | int (n : Int)
  | str (s : String)
  | dictNil
  | dictCons (key : String) (value : PyVal) (rest : PyVal)
deriving DecidableEq, Repr

/-- The exceptions the program manipulates.  `noDatabaseError` is the
class defined in the source; `runtimeError` is the generic `RuntimeError`
raised for a corrupt pointer; `fileNotFoundError` and `otherError` model
the remaining built-in exception classes that can flow through. -/
inductive PyError where
  | noDatabaseError
  | fileNotFoundError (msg : String)
  | runtimeError (msg : String)
  | otherError (msg : String)
deriving DecidableEq, Repr

/-- Contents of one file on disk: the pointer file is a text file, a save
record is a pickled binary file (stored as the value it pickles, since
pickle is full-fidelity on `PyVal`). -/
inductive FileData where
  | text (s : String)
  | bin (v : PyVal)
deriving DecidableEq, Repr

/-- The filesystem: an association list from path to file contents.  Only
the first binding for a path is visible. -/
abbrev FS := List (String × FileData)

/-- Opening a path for reading: returns the contents of the first binding,
if any. -/
def lookupFile (fs : FS) (path : String) : Option FileData :=
  match fs with
  | [] => Option.none
  | (p, d) :: rest => if p = path then some d else lookupFile rest path

/-- Opening a path for writing (modes "w"/"wb+" both truncate): replaces
the binding for `path`, or appends a fresh one. -/
def writeFile (fs : FS) (path : String) (d : FileData) : FS :=
  match fs with
  | [] => [(path, d)]
  | (p, e) :: rest =>
      if p = path then (p, d) :: rest else (p, e) :: writeFile rest path d

/-- Python's `os.path.join(a, b)` for the case the program exercises: `a`
a nonempty folder name not ending in a separator. -/
def ospathJoin (a b : String) : String := a ++ "/" ++ b

/-- The whitespace characters Python's default `str.strip()` removes
(restricted to the ASCII ones any path here could contain). -/
def pyWhitespace (c : Char) : Bool :=
  c == ' ' || c == '\t' || c == '\n' || c == '\r' || c == '\x0b' || c == '\x0c'

/-- Python's `str.strip()`: drop leading and trailing whitespace. -/
def pyStrip (s : String) : String :=
  ⟨((s.data.dropWhile pyWhitespace).reverse.dropWhile pyWhitespace).reverse⟩

/-- Python's `repr` on a string, as used in the corrupt-pointer error
message (quoting only; the paths involved need no escaping). -/
def pyRepr (s : String) : String := "'" ++ s ++ "'"

/-- The first line of a file, as `readline()` followed by the immediate
`strip()` sees it: everything up to the first newline (the trailing
newline that `readline` keeps is whitespace and is removed by the strip
that always follows in the source). -/
def readlineFirst (s : String) : String :=
  ⟨s.data.takeWhile (fun c => c != '\n')⟩

deriving instance DecidableEq for Except

/-- The state of one `DatabaseInterface` instance.  `database_creator` is
the caller-supplied zero-argument factory; being caller code it may raise,
so it is modelled by the `Except` value the call produces.  `database` is
the `_database` attribute, with `PyVal.none` for Python `None` (the
constructor initialises it to `None`, and the code tests it with
`is None`). -/
structure DatabaseInterface where
  save_folder : String
  database_creator : Except PyError PyVal
  most_recent_save_file : String
  exact_most_recent_save_file : String
  database : PyVal
deriving DecidableEq, Repr

/-- `DatabaseInterface.__init__`.  The directory-creation side effect has
no bearing on any file the model tracks.  `exact_most_recent_save_file`
is `os.path.join(save_folder, most_recent_save_file)`. -/
def DatabaseInterface.init (save_folder : String)
    (database_creator : Except PyError PyVal)
    (most_recent_save_file : String) : DatabaseInterface :=
  { save_folder := save_folder
    database_creator := database_creator
    most_recent_save_file := most_recent_save_file
    exact_most_recent_save_file := ospathJoin save_folder most_recent_save_file
    database := PyVal.none }

/-- `DatabaseInterface.load`.  Returns the updated instance and either the
loaded value or the exception that propagates.  The pointer file is opened
in text mode; if it is missing, or its first line strips to the empty
string (the source then raises a `FileNotFoundError` that its own outer
handler catches), the factory is called and its value installed.  A
nonempty stripped first line is opened as a pickle; if that file is
missing, the inner handler converts the `FileNotFoundError` into a
`RuntimeError`, which the outer `except FileNotFoundError` does not catch.
The two `otherError` branches model decode/unpickle failures on
wrongly-typed files, which likewise bypass the outer handler; no operation
of this model ever creates such files. -/
def DatabaseInterface.load (s : DatabaseInterface) (fs : FS) :
    DatabaseInterface × Except PyError PyVal :=
  match lookupFile fs s.exact_most_recent_save_file with
  | Option.none =>
      match s.database_creator with
      | Except.ok v => ({ s with database := v }, Except.ok v)
      | Except.error e => (s, Except.error e)
  | some (FileData.bin _) => (s, Except.error (PyError.otherError "UnicodeDecodeError"))
  | some (FileData.text content) =>
      let database_file := pyStrip (readlineFirst content)
      if database_file = "" then
        match s.database_creator with
        | Except.ok v => ({ s with database := v }, Except.ok v)
        | Except.error e => (s, Except.error e)
      else
        match lookupFile fs database_file with
        | some (FileData.bin v) => ({ s with database := v }, Except.ok v)
        | some (FileData.text _) => (s, Except.error (PyError.otherError "UnpicklingError"))
        | Option.none =>
            (s, Except.error (PyError.runtimeError
              ("Most recent save file " ++ pyRepr database_file ++ " could not be found")))

/-- `DatabaseInterface.expose`.  Touches neither the filesystem nor the
instance, as the type shows. -/
def DatabaseInterface.expose (s : DatabaseInterface) : Except PyError PyVal :=
  if s.database = PyVal.none then Except.error PyError.noDatabaseError
  else Except.ok s.database

/-- `DatabaseInterface.expose_or_load`: try `expose`, and on
`NoDatabaseError` (the only exception `expose` can raise) fall back to
`load`. -/
def DatabaseInterface.exposeOrLoad (s : DatabaseInterface) (fs : FS) :
    DatabaseInterface × Except PyError PyVal :=
  match s.expose with
  | Except.ok v => (s, Except.ok v)
  | Except.error PyError.noDatabaseError => s.load fs
  | Except.error e => (s, Except.error e)

/-- The save-record path for one call of `save`:
`os.path.normpath(os.path.join(save_folder, "db_sv_" + t + ".pkl"))`.
`normpath` is the identity on the already-normalized paths this program
builds, so it does not appear explicitly. -/
def saveFilePath (s : DatabaseInterface) (formatted_date_and_time : String) : String :=
  ospathJoin s.save_folder ("db_sv_" ++ formatted_date_and_time ++ ".pkl")

/-- `DatabaseInterface.save`.  The `database` argument defaults to `None`
in Python and the code only tests it with `is not None`, so supplying
`None` is indistinguishable from supplying nothing; the model therefore
takes a plain `PyVal` with `PyVal.none` meaning "not supplied".
`formatted_date_and_time` is the string produced by
`datetime.now().strftime("%H_%M_%S_%b_%d_%Y")`, or the literal
`"UnknownTime"` when that raised: either way a string parameter here.
Returns the mutated instance, the filesystem, and the exception if one is
raised. -/
def DatabaseInterface.save (s : DatabaseInterface) (fs : FS)
    (database : PyVal) (formatted_date_and_time : String) :
    DatabaseInterface × FS × Option PyError :=
  let s1 := if database ≠ PyVal.none then { s with database := database } else s
  if s1.database = PyVal.none then
    (s1, fs, some PyError.noDatabaseError)
  else
    let save_file := saveFilePath s1 formatted_date_and_time
    let fs1 := writeFile fs save_file (FileData.bin s1.database)
    let fs2 := writeFile fs1 s1.exact_most_recent_save_file (FileData.text save_file)
    (s1, fs2, Option.none)

/-- A use of a context manager's yielded value.  The body receives the
yielded object and, by mutating it in place, leaves it as the returned
`PyVal`; the `Option PyError` is the exception the body raised, if any
(the returned value is then the state the object had reached when the
exception escaped). -/
abbrev ScopeBody := PyVal → PyVal × Option PyError

/-- `DatabaseInterface.load_then_save`: load, yield, and save in a
`finally` block, so the save runs on every exit path.  The bare
`except Exception: raise` in the source re-raises unchanged and is no
observable behaviour.  An exception raised by the `finally` save
supersedes any in-flight exception, per Python semantics. -/
def DatabaseInterface.loadThenSave (s : DatabaseInterface) (fs : FS)
    (body : ScopeBody) (formatted_date_and_time : String) :
    DatabaseInterface × FS × Option PyError :=
  match s.load fs with
  | (s1, Except.error e) =>
      match s1.save fs PyVal.none formatted_date_and_time with
      | (s2, fs2, some e2) => (s2, fs2, some e2)
      | (s2, fs2, Option.none) => (s2, fs2, some e)
  | (s1, Except.ok _) =>
      let r := body s1.database
      let s2 := { s1 with database := r.1 }
      match s2.save fs PyVal.none formatted_date_and_time with
      | (s3, fs3, some e2) => (s3, fs3, some e2)
      | (s3, fs3, Option.none) => (s3, fs3, r.2)

/-- `DatabaseInterface.expose_or_load_then_save`: on entry attempt
`expose_or_load`; a `NoDatabaseError` there clears `database_exists`, is
re-raised, and the `finally` block then skips the save.  Any other entry
exception leaves `database_exists` set, so the `finally` save still runs
before the exception propagates (and supersedes it if the save itself
raises).  A successful entry yields the value and saves on exit
regardless of whether the body raised. -/
def DatabaseInterface.exposeOrLoadThenSave (s : DatabaseInterface) (fs : FS)
    (body : ScopeBody) (formatted_date_and_time : String) :
    DatabaseInterface × FS × Option PyError :=
  match s.exposeOrLoad fs with
  | (s1, Except.error PyError.noDatabaseError) =>
      (s1, fs, some PyError.noDatabaseError)
  | (s1, Except.error e) =>
      match s1.save fs PyVal.none formatted_date_and_time with
      | (s2, fs2, some e2) => (s2, fs2, some e2)
      | (s2, fs2, Option.none) => (s2, fs2, some e)
  | (s1, Except.ok _) =>
      let r := body s1.database
      let s2 := { s1 with database := r.1 }
      match s2.save fs PyVal.none formatted_date_and_time with
      | (s3, fs3, some e2) => (s3, fs3, some e2)
      | (s3, fs3, Option.none) => (s3, fs3, r.2)

/-- Number of files `load` successfully opens for reading: the pointer
file if present, plus the record file if the pointer names one that
exists.  An `open` that fails with `FileNotFoundError` reads nothing. -/
def loadReads (s : DatabaseInterface) (fs : FS) : Nat :=
  match lookupFile fs s.exact_most_recent_save_file with
  | Option.none => 0
  | some (FileData.bin _) => 1
  | some (FileData.text content) =>
      let database_file := pyStrip (readlineFirst content)
      if database_file = "" then 1
      else match lookupFile fs database_file with
        | Option.none => 1
        | some _ => 2

/-- Number of files `expose_or_load` opens for reading: zero when a value
is resident (`expose` succeeds), otherwise whatever `load` reads. -/
def exposeOrLoadReads (s : DatabaseInterface) (fs : FS) : Nat :=
  if s.database = PyVal.none then loadReads s fs else 0

/-- A sequence of `save(v)` calls, each with its own formatted timestamp;
an exception aborts the rest of the sequence. -/
def DatabaseInterface.saveMany (s : DatabaseInterface) (fs : FS) :
    List (PyVal × String) → DatabaseInterface × FS × Option PyError
  | [] => (s, fs, Option.none)
  | (v, t) :: rest =>
      match s.save fs v t with
      | (s1, fs1, some e) => (s1, fs1, some e)
      | (s1, fs1, Option.none) => s1.saveMany fs1 rest

/-! Concrete instances used by witnesses and counterexamples. -/

/-- The instance the repository's demonstration entry point builds:
factory returning an empty dict, default pointer filename. -/
def sampleStore : DatabaseInterface :=
  DatabaseInterface.init "database" (Except.ok PyVal.dictNil) "_most_recent_save.txt"

/-- The sample instance with the value `7` resident. -/
def sampleStore7 : DatabaseInterface := { sampleStore with database := PyVal.int 7 }

/-- An instance whose caller-supplied factory itself raises
`NoDatabaseError` when called. -/
def raisingFactoryStore : DatabaseInterface :=
  DatabaseInterface.init "database" (Except.error PyError.noDatabaseError) "_most_recent_save.txt"

/-- A filesystem whose pointer file names an existing record holding `3`. -/
def pointedFS : FS :=
  [("database/_most_recent_save.txt", FileData.text "database/db_sv_X.pkl"),
   ("database/db_sv_X.pkl", FileData.bin (PyVal.int 3))]

/-- A scope body that mutates the yielded value into `{"wow": "haha"}` and
then raises a `ValueError`. -/
def mutatingBody : ScopeBody :=
  fun _ => (PyVal.dictCons "wow" (PyVal.str "haha") PyVal.dictNil,
            some (PyError.otherError "ValueError"))

/-! Helper lemmas about the filesystem model and single saves. -/

theorem lookupFile_writeFile_self (fs : FS) (p : String) (d : FileData) :
    lookupFile (writeFile fs p d) p = some d := by
  induction fs with
  | nil => simp [writeFile, lookupFile]
  | cons hd tl ih =>
      obtain ⟨q, e⟩ := hd
      by_cases h : q = p <;> simp [writeFile, lookupFile, h, ih]

theorem lookupFile_writeFile_ne (fs : FS) (p q : String) (d : FileData) (h : p ≠ q) :
    lookupFile (writeFile fs p d) q = lookupFile fs q := by
  induction fs with
  | nil => simp [writeFile, lookupFile, h]
  | cons hd tl ih =>
      obtain ⟨r, e⟩ := hd
      by_cases hr : r = p
      · subst hr
        simp [writeFile, lookupFile, h]
      · simp [writeFile, lookupFile, hr, ih]

theorem saveFilePath_update (s : DatabaseInterface) (v : PyVal) (t : String) :
    saveFilePath { s with database := v } t = saveFilePath s t := rfl

theorem exact_pointer_update (s : DatabaseInterface) (v : PyVal) :
    ({ s with database := v } : DatabaseInterface).exact_most_recent_save_file
      = s.exact_most_recent_save_file := rfl

/-- Shape of a successful `save` with an explicitly supplied value. -/
theorem save_ok (s : DatabaseInterface) (fs : FS) (v : PyVal) (t : String)
    (hv : v ≠ PyVal.none) :
    s.save fs v t =
      ({ s with database := v },
       writeFile (writeFile fs (saveFilePath s t) (FileData.bin v))
         s.exact_most_recent_save_file (FileData.text (saveFilePath s t)),
       Option.none) := by
  simp [DatabaseInterface.save, hv, saveFilePath_update, exact_pointer_update]

/-- Shape of a successful `save` with no value supplied (the resident
value is written out). -/
theorem save_noarg_ok (s : DatabaseInterface) (fs : FS) (t : String)
    (h : s.database ≠ PyVal.none) :
    s.save fs PyVal.none t =
      (s,
       writeFile (writeFile fs (saveFilePath s t) (FileData.bin s.database))
         s.exact_most_recent_save_file (FileData.text (saveFilePath s t)),
       Option.none) := by
  simp [DatabaseInterface.save, h]

/-- The record path of a save is never the empty string (it always
contains the folder separator and the fixed name parts). -/
theorem saveFilePath_ne_empty (s : DatabaseInterface) (t : String) :
    saveFilePath s t ≠ "" := by
  intro h
  have h2 := congrArg String.data h
  simp [saveFilePath, ospathJoin, String.data_append] at h2

/-- Distinct formatted timestamps give distinct record paths (for one
fixed instance configuration). -/
theorem saveFilePath_inj (s : DatabaseInterface) :
    Function.Injective (saveFilePath s) := by
  intro t t' h
  simp only [saveFilePath, ospathJoin] at h
  have hd := congrArg String.data h
  simp only [String.data_append] at hd
  have h1 := List.append_cancel_left hd
  have h2 := List.append_cancel_right h1
  have h3 := List.append_cancel_left h2
  exact String.ext h3

/-- A run of successful saves leaves any file that is neither one of the
run's record paths nor the pointer file exactly as it was. -/
theorem saveMany_preserves (L : List (PyVal × String)) (s : DatabaseInterface)
    (fs : FS) (q : String)
    (hv : ∀ p ∈ L, p.1 ≠ PyVal.none)
    (hq : ∀ p ∈ L, q ≠ saveFilePath s p.2)
    (hqp : q ≠ s.exact_most_recent_save_file) :
    lookupFile (s.saveMany fs L).2.1 q = lookupFile fs q := by
  induction L generalizing s fs with
  | nil => rfl
  | cons hd tl ih =>
      obtain ⟨v, t⟩ := hd
      have hvh : v ≠ PyVal.none := hv (v, t) (by simp)
      simp only [DatabaseInterface.saveMany, save_ok s fs v t hvh]
      rw [ih { s with database := v }
            (writeFile (writeFile fs (saveFilePath s t) (FileData.bin v))
              s.exact_most_recent_save_file (FileData.text (saveFilePath s t)))
            (fun p hp => hv p (List.mem_cons_of_mem _ hp))
            (fun p hp => hq p (List.mem_cons_of_mem _ hp)) hqp]
      rw [lookupFile_writeFile_ne _ _ _ _ (Ne.symm hqp)]
      exact lookupFile_writeFile_ne _ _ _ _ (Ne.symm (hq (v, t) (by simp)))

/-- A run of saves of non-`None` values raises nothing. -/
theorem saveMany_no_error (L : List (PyVal × String)) (s : DatabaseInterface) (fs : FS)
    (hv : ∀ p ∈ L, p.1 ≠ PyVal.none) :
    (s.saveMany fs L).2.2 = Option.none := by
  induction L generalizing s fs with
  | nil => rfl
  | cons hd tl ih =>
      obtain ⟨v, t⟩ := hd
      have hvh : v ≠ PyVal.none := hv (v, t) (by simp)
      simp only [DatabaseInterface.saveMany, save_ok s fs v t hvh]
      exact ih { s with database := v } _ (fun p hp => hv p (List.mem_cons_of_mem _ hp))

/-- After a run of saves with pairwise distinct record paths, each of
which avoids the pointer file, every record of the run is still on disk
with the value its save wrote. -/
theorem saveMany_records (L : List (PyVal × String)) (s : DatabaseInterface) (fs : FS)
    (hv : ∀ p ∈ L, p.1 ≠ PyVal.none)
    (hnd : (L.map fun p => saveFilePath s p.2).Nodup)
    (hptr : ∀ p ∈ L, saveFilePath s p.2 ≠ s.exact_most_recent_save_file) :
    ∀ p ∈ L, lookupFile (s.saveMany fs L).2.1 (saveFilePath s p.2)
      = some (FileData.bin p.1) := by
  induction L generalizing s fs with
  | nil => intro p hp; cases hp
  | cons hd tl ih =>
      obtain ⟨v, t⟩ := hd
      have hvh : v ≠ PyVal.none := hv (v, t) (by simp)
      simp only [List.map_cons, List.nodup_cons, List.mem_map] at hnd
      intro p hp
      rcases List.mem_cons.mp hp with rfl | hp'
      · simp only [DatabaseInterface.saveMany, save_ok s fs v t hvh]
        rw [saveMany_preserves tl { s with database := v }
              (writeFile (writeFile fs (saveFilePath s t) (FileData.bin v))
                s.exact_most_recent_save_file (FileData.text (saveFilePath s t)))
              (saveFilePath s t)
              (fun q hq => hv q (List.mem_cons_of_mem _ hq))
              (fun q hq h => hnd.1 ⟨q, hq, h.symm⟩)
              (hptr (v, t) (by simp))]
        rw [lookupFile_writeFile_ne _ _ _ _ (Ne.symm (hptr (v, t) (by simp)))]
        exact lookupFile_writeFile_self _ _ _
      · simp only [DatabaseInterface.saveMany, save_ok s fs v t hvh]
        exact ih { s with database := v } _
          (fun q hq => hv q (List.mem_cons_of_mem _ hq)) hnd.2
          (fun q hq => hptr q (List.mem_cons_of_mem _ hq)) p hp'

/-- After a nonempty run of successful saves the pointer file holds
exactly the last record's path. -/
theorem saveMany_pointer (L : List (PyVal × String)) (s : DatabaseInterface) (fs : FS)
    (hv : ∀ p ∈ L, p.1 ≠ PyVal.none) (hne : L ≠ []) :
    lookupFile (s.saveMany fs L).2.1 s.exact_most_recent_save_file
      = some (FileData.text (saveFilePath s (L.getLast hne).2)) := by
  induction L generalizing s fs with
  | nil => exact absurd rfl hne
  | cons hd tl ih =>
      obtain ⟨v, t⟩ := hd
      have hvh : v ≠ PyVal.none := hv (v, t) (by simp)
      simp only [DatabaseInterface.saveMany, save_ok s fs v t hvh]
      by_cases htl : tl = []
      · subst htl
        simp only [DatabaseInterface.saveMany, List.getLast_singleton]
        exact lookupFile_writeFile_self _ _ _
      · rw [List.getLast_cons htl]
        exact ih { s with database := v } _
          (fun q hq => hv q (List.mem_cons_of_mem _ hq)) htl

/-! Claim theorems. -/

/-- C7: calling `save()` with no value supplied while no value is resident
raises `NoDatabaseError` and is atomic: the instance (in particular its
in-memory value) and the filesystem are returned exactly unchanged. -/
theorem save_none_resident_raises (s : DatabaseInterface) (fs : FS) (t : String)
    (h : s.database = PyVal.none) :
    s.save fs PyVal.none t = (s, fs, some PyError.noDatabaseError) := by
  simp [DatabaseInterface.save, h]

/-- C7 witness: the fresh sample instance on an empty filesystem. -/
theorem save_none_resident_raises_witness :
    sampleStore.save [] PyVal.none "12_00_00_Jan_01_2026"
      = (sampleStore, [], some PyError.noDatabaseError) :=
  save_none_resident_raises sampleStore [] "12_00_00_Jan_01_2026" (by decide)

/-- C8: `expose()` returns the in-memory value when one is held, raises
`NoDatabaseError` when none is (in particular on a freshly constructed
instance, whose `_database` the constructor sets to `None`), and by its
very type neither touches the filesystem nor changes the instance. -/
theorem expose_spec (s s' : DatabaseInterface) (folder mrs : String)
    (creator : Except PyError PyVal)
    (h : s.database ≠ PyVal.none) (h' : s'.database = PyVal.none) :
    s.expose = Except.ok s.database ∧
    s'.expose = Except.error PyError.noDatabaseError ∧
    (DatabaseInterface.init folder creator mrs).expose
      = Except.error PyError.noDatabaseError := by
  refine ⟨?_, ?_, ?_⟩ <;>
    simp [DatabaseInterface.expose, DatabaseInterface.init, h, h']

/-- C8 witness: an instance holding `5`, and the fresh sample instance. -/
theorem expose_spec_witness :
    ({ sampleStore with database := PyVal.int 5 } : DatabaseInterface).expose
        = Except.ok ({ sampleStore with database := PyVal.int 5 } : DatabaseInterface).database ∧
    sampleStore.expose = Except.error PyError.noDatabaseError ∧
    (DatabaseInterface.init "database" (Except.ok PyVal.dictNil) "_most_recent_save.txt").expose
        = Except.error PyError.noDatabaseError :=
  expose_spec { sampleStore with database := PyVal.int 5 } sampleStore
    "database" "_most_recent_save.txt" (Except.ok PyVal.dictNil)
    (by decide) (by decide)

/-- C4: when the pointer file is missing, or its first line strips to the
empty string, `load()` raises nothing, installs the factory's value as the
in-memory value and returns it. -/
theorem load_cold_start (s : DatabaseInterface) (fs : FS) (v : PyVal)
    (hc : s.database_creator = Except.ok v)
    (hp : lookupFile fs s.exact_most_recent_save_file = Option.none ∨
          ∃ content, lookupFile fs s.exact_most_recent_save_file
              = some (FileData.text content) ∧ pyStrip (readlineFirst content) = "") :
    s.load fs = ({ s with database := v }, Except.ok v) := by
  rcases hp with hp | ⟨content, hp, hb⟩
  · simp [DatabaseInterface.load, hp, hc]
  · simp [DatabaseInterface.load, hp, hb, hc]

/-- C4 witness: the sample instance on an empty filesystem. -/
theorem load_cold_start_witness :
    sampleStore.load [] = ({ sampleStore with database := PyVal.dictNil }, Except.ok PyVal.dictNil) :=
  load_cold_start sampleStore [] PyVal.dictNil (by decide) (Or.inl (by decide))

/-- C3: if the pointer file exists and its stripped first line names a
path with no file behind it, `load()` raises the `RuntimeError` built in
the source (the inner handler converts the `FileNotFoundError`, and the
outer handler does not catch `RuntimeError`), leaving the instance
unchanged — in particular it does not fall back to the factory the way the
missing-pointer case of C4 does. -/
theorem load_corrupt_pointer (s : DatabaseInterface) (fs : FS) (content : String)
    (hp : lookupFile fs s.exact_most_recent_save_file = some (FileData.text content))
    (hnb : pyStrip (readlineFirst content) ≠ "")
    (hmiss : lookupFile fs (pyStrip (readlineFirst content)) = Option.none) :
    s.load fs =
      (s, Except.error (PyError.runtimeError
        ("Most recent save file " ++ pyRepr (pyStrip (readlineFirst content))
          ++ " could not be found"))) := by
  simp [DatabaseInterface.load, hp, hnb, hmiss]

/-- C3 witness: a pointer file naming a record that does not exist. -/
theorem load_corrupt_pointer_witness :
    sampleStore.load [("database/_most_recent_save.txt", FileData.text "database/db_sv_X.pkl")]
      = (sampleStore, Except.error (PyError.runtimeError
          "Most recent save file 'database/db_sv_X.pkl' could not be found")) := by
  have h := load_corrupt_pointer sampleStore
    [("database/_most_recent_save.txt", FileData.text "database/db_sv_X.pkl")]
    "database/db_sv_X.pkl" (by decide) (by decide) (by decide)
  exact h

/-- C10: with a factory returning `None`, a cold-start `load()` succeeds
and returns `None`, yet the instance is indistinguishable from the
never-loaded state: `expose()` raises `NoDatabaseError` and an
argument-less `save()` raises `NoDatabaseError` without touching disk. -/
theorem none_factory_indistinguishable (s : DatabaseInterface) (fs : FS) (t : String)
    (hc : s.database_creator = Except.ok PyVal.none)
    (hp : lookupFile fs s.exact_most_recent_save_file = Option.none) :
    s.load fs = ({ s with database := PyVal.none }, Except.ok PyVal.none) ∧
    (s.load fs).1.expose = Except.error PyError.noDatabaseError ∧
    (s.load fs).1.save fs PyVal.none t = ((s.load fs).1, fs, some PyError.noDatabaseError) := by
  have h1 : s.load fs = ({ s with database := PyVal.none }, Except.ok PyVal.none) := by
    simp [DatabaseInterface.load, hp, hc]
  refine ⟨h1, ?_, ?_⟩ <;> rw [h1] <;>
    simp [DatabaseInterface.expose, DatabaseInterface.save]

/-- C10 witness: a `None`-returning factory over an empty filesystem. -/
theorem none_factory_indistinguishable_witness :
    (DatabaseInterface.init "database" (Except.ok PyVal.none) "_most_recent_save.txt").load []
        = ({ DatabaseInterface.init "database" (Except.ok PyVal.none) "_most_recent_save.txt"
              with database := PyVal.none }, Except.ok PyVal.none) ∧
    ((DatabaseInterface.init "database" (Except.ok PyVal.none) "_most_recent_save.txt").load []).1.expose
        = Except.error PyError.noDatabaseError ∧
    ((DatabaseInterface.init "database" (Except.ok PyVal.none) "_most_recent_save.txt").load []).1.save
        [] PyVal.none "12_00_00_Jan_01_2026"
        = (((DatabaseInterface.init "database" (Except.ok PyVal.none) "_most_recent_save.txt").load []).1,
           [], some PyError.noDatabaseError) :=
  none_factory_indistinguishable
    (DatabaseInterface.init "database" (Except.ok PyVal.none) "_most_recent_save.txt")
    [] "12_00_00_Jan_01_2026" (by decide) (by decide)

/-- C1 counterexample: for `v = None` the round trip fails.  `save(None)`
is indistinguishable from `save()` with no argument, so on an instance
holding `7` it succeeds but writes `7`; a fresh instance over the same
directory then loads `7`, which is not deep-equal to `None`. -/
theorem save_load_roundtrip_counterexample :
    (sampleStore7.save [] PyVal.none "12_00_00_Jan_01_2026").2.2 = Option.none ∧
    (sampleStore.load (sampleStore7.save [] PyVal.none "12_00_00_Jan_01_2026").2.1).2
      = Except.ok (PyVal.int 7) ∧
    PyVal.int 7 ≠ PyVal.none := by decide

/-- C1 (amended): for any serializable value `v` other than `None`,
`save(v)` succeeds and a `load()` on a fresh instance configured with the
same pointer-file path returns exactly `v` (side conditions: the record
path survives the pointer file's readline-and-strip, and does not collide
with the pointer file itself — both hold for the paths the program
builds). -/
theorem save_load_roundtrip (s s2 : DatabaseInterface) (fs : FS) (v : PyVal) (t : String)
    (hv : v ≠ PyVal.none)
    (hcfg : s2.exact_most_recent_save_file = s.exact_most_recent_save_file)
    (hpath : pyStrip (readlineFirst (saveFilePath s t)) = saveFilePath s t)
    (hnp : saveFilePath s t ≠ s.exact_most_recent_save_file) :
    (s.save fs v t).2.2 = Option.none ∧
    (s2.load (s.save fs v t).2.1).2 = Except.ok v := by
  rw [save_ok s fs v t hv]
  refine ⟨rfl, ?_⟩
  have hptr : lookupFile
      (writeFile (writeFile fs (saveFilePath s t) (FileData.bin v))
        s.exact_most_recent_save_file (FileData.text (saveFilePath s t)))
      s2.exact_most_recent_save_file = some (FileData.text (saveFilePath s t)) := by
    rw [hcfg]
    exact lookupFile_writeFile_self _ _ _
  have hrec : lookupFile
      (writeFile (writeFile fs (saveFilePath s t) (FileData.bin v))
        s.exact_most_recent_save_file (FileData.text (saveFilePath s t)))
      (saveFilePath s t) = some (FileData.bin v) := by
    rw [lookupFile_writeFile_ne _ _ _ _ (Ne.symm hnp)]
    exact lookupFile_writeFile_self _ _ _
  simp [DatabaseInterface.load, hptr, hpath, saveFilePath_ne_empty s t, hrec]

/-- C1 witness: the dict `{"wow": "haha"}` round-trips through the sample
instance. -/
theorem save_load_roundtrip_witness :
    (sampleStore.save [] (PyVal.dictCons "wow" (PyVal.str "haha") PyVal.dictNil)
        "12_00_00_Jan_01_2026").2.2 = Option.none ∧
    (sampleStore.load (sampleStore.save [] (PyVal.dictCons "wow" (PyVal.str "haha") PyVal.dictNil)
        "12_00_00_Jan_01_2026").2.1).2
      = Except.ok (PyVal.dictCons "wow" (PyVal.str "haha") PyVal.dictNil) :=
  save_load_roundtrip sampleStore sampleStore []
    (PyVal.dictCons "wow" (PyVal.str "haha") PyVal.dictNil) "12_00_00_Jan_01_2026"
    (by decide) rfl (by decide) (by decide)

/-- Any single `load()` opens at most two files for reading (the pointer
file and the record file). -/
theorem loadReads_le_two (s : DatabaseInterface) (fs : FS) : loadReads s fs ≤ 2 := by
  unfold loadReads
  split <;> try omega
  dsimp only
  split <;> try omega
  split <;> omega

/-- C9 counterexample: with no resident value and a pointer file naming an
existing record, a single `expose_or_load()` opens two files for reading
(the pointer file and the record file), so it performs more than one disk
read. -/
theorem expose_or_load_reads_counterexample :
    exposeOrLoadReads sampleStore pointedFS = 2 ∧
    ¬ exposeOrLoadReads sampleStore pointedFS ≤ 1 := by decide

/-- C9 (amended): `expose_or_load()` returns `expose()`'s result when a
value is resident and otherwise performs `load()` and returns its result;
with a resident value repeated calls are idempotent (same instance, same
value, zero disk reads), and any single call performs at most one `load()`
— hence at most two file reads (pointer and record), not at most one. -/
theorem expose_or_load_spec (s s' : DatabaseInterface) (fs fs' : FS)
    (h : s.database ≠ PyVal.none) (h' : s'.database = PyVal.none) :
    s.exposeOrLoad fs = (s, s.expose) ∧
    s.exposeOrLoad fs = (s, Except.ok s.database) ∧
    (s.exposeOrLoad fs).1.exposeOrLoad fs = s.exposeOrLoad fs ∧
    exposeOrLoadReads s fs = 0 ∧
    s'.exposeOrLoad fs' = s'.load fs' ∧
    exposeOrLoadReads s' fs' ≤ 2 := by
  have he : s.expose = Except.ok s.database := by simp [DatabaseInterface.expose, h]
  have h1 : s.exposeOrLoad fs = (s, Except.ok s.database) := by
    simp [DatabaseInterface.exposeOrLoad, he]
  refine ⟨by rw [h1, he], h1, by rw [h1]; exact h1, ?_, ?_, ?_⟩
  · simp [exposeOrLoadReads, h]
  · simp [DatabaseInterface.exposeOrLoad, DatabaseInterface.expose, h']
  · simp only [exposeOrLoadReads, h', if_pos]
    exact loadReads_le_two s' fs'

/-- C9 witness: an instance holding `7` over a filesystem with a live
pointer, and the fresh sample instance over the same filesystem. -/
theorem expose_or_load_spec_witness :
    sampleStore7.exposeOrLoad pointedFS = (sampleStore7, sampleStore7.expose) ∧
    sampleStore7.exposeOrLoad pointedFS = (sampleStore7, Except.ok sampleStore7.database) ∧
    (sampleStore7.exposeOrLoad pointedFS).1.exposeOrLoad pointedFS
      = sampleStore7.exposeOrLoad pointedFS ∧
    exposeOrLoadReads sampleStore7 pointedFS = 0 ∧
    sampleStore.exposeOrLoad pointedFS = sampleStore.load pointedFS ∧
    exposeOrLoadReads sampleStore pointedFS ≤ 2 :=
  expose_or_load_spec sampleStore7 sampleStore pointedFS pointedFS (by decide) (by decide)

/-- C6: the load-then-save scope loads at entry and saves on every exit
path: if the body mutates the yielded value and then raises an arbitrary
error, the save in the `finally` block still writes a new record holding
the mutated value and repoints the pointer file, and the body's error then
propagates. -/
theorem load_then_save_scope (s s1 : DatabaseInterface) (fs : FS) (t : String)
    (body : ScopeBody) (v0 v' : PyVal) (e : PyError)
    (hload : s.load fs = (s1, Except.ok v0))
    (hbody : body s1.database = (v', some e))
    (hv' : v' ≠ PyVal.none)
    (hnp : saveFilePath s1 t ≠ s1.exact_most_recent_save_file) :
    s.loadThenSave fs body t =
      ({ s1 with database := v' },
       writeFile (writeFile fs (saveFilePath s1 t) (FileData.bin v'))
         s1.exact_most_recent_save_file (FileData.text (saveFilePath s1 t)),
       some e) ∧
    lookupFile (s.loadThenSave fs body t).2.1 (saveFilePath s1 t)
      = some (FileData.bin v') := by
  have hmain : s.loadThenSave fs body t =
      ({ s1 with database := v' },
       writeFile (writeFile fs (saveFilePath s1 t) (FileData.bin v'))
         s1.exact_most_recent_save_file (FileData.text (saveFilePath s1 t)),
       some e) := by
    simp only [DatabaseInterface.loadThenSave, hload, hbody]
    simp [save_noarg_ok ({ s1 with database := v' } : DatabaseInterface) fs t hv',
          saveFilePath_update, exact_pointer_update]
  refine ⟨hmain, ?_⟩
  rw [hmain]
  dsimp only
  rw [lookupFile_writeFile_ne _ _ _ _ (Ne.symm hnp)]
  exact lookupFile_writeFile_self _ _ _

/-- C6 witness: cold-start scope whose body mutates the fresh dict into
`{"wow": "haha"}` and raises a `ValueError`. -/
theorem load_then_save_scope_witness :
    sampleStore.loadThenSave [] mutatingBody "12_00_00_Jan_01_2026" =
      ({ ({ sampleStore with database := PyVal.dictNil } : DatabaseInterface) with
          database := PyVal.dictCons "wow" (PyVal.str "haha") PyVal.dictNil },
       writeFile (writeFile []
           (saveFilePath ({ sampleStore with database := PyVal.dictNil } : DatabaseInterface)
             "12_00_00_Jan_01_2026")
           (FileData.bin (PyVal.dictCons "wow" (PyVal.str "haha") PyVal.dictNil)))
         ({ sampleStore with database := PyVal.dictNil } : DatabaseInterface).exact_most_recent_save_file
         (FileData.text (saveFilePath
           ({ sampleStore with database := PyVal.dictNil } : DatabaseInterface)
           "12_00_00_Jan_01_2026")),
       some (PyError.otherError "ValueError")) ∧
    lookupFile (sampleStore.loadThenSave [] mutatingBody "12_00_00_Jan_01_2026").2.1
        (saveFilePath ({ sampleStore with database := PyVal.dictNil } : DatabaseInterface)
          "12_00_00_Jan_01_2026")
      = some (FileData.bin (PyVal.dictCons "wow" (PyVal.str "haha") PyVal.dictNil)) :=
  load_then_save_scope sampleStore ({ sampleStore with database := PyVal.dictNil })
    [] "12_00_00_Jan_01_2026" mutatingBody PyVal.dictNil
    (PyVal.dictCons "wow" (PyVal.str "haha") PyVal.dictNil)
    (PyError.otherError "ValueError")
    (by decide) (by decide) (by decide) (by decide)

/-- C5: if entry to the expose-or-load-then-save scope fails with
`NoDatabaseError` (nothing resident, pointer file absent, and the factory
itself raised it — the only way that exception reaches the entry), the
scope re-raises it and the `finally` block skips the save, leaving the
filesystem untouched; for every successful entry the exit save runs,
writing the (possibly mutated) value whether or not the body raised, and
the body's error, if any, then propagates. -/
theorem expose_or_load_then_save_scope (s : DatabaseInterface) (fs : FS)
    (body : ScopeBody) (t : String) :
    ((s.exposeOrLoad fs).2 = Except.error PyError.noDatabaseError →
       s.exposeOrLoadThenSave fs body t
         = ((s.exposeOrLoad fs).1, fs, some PyError.noDatabaseError)) ∧
    (∀ s1 v v' berr,
       s.exposeOrLoad fs = (s1, Except.ok v) →
       body s1.database = (v', berr) →
       v' ≠ PyVal.none →
       s.exposeOrLoadThenSave fs body t =
         ({ s1 with database := v' },
          writeFile (writeFile fs (saveFilePath s1 t) (FileData.bin v'))
            s1.exact_most_recent_save_file (FileData.text (saveFilePath s1 t)),
          berr)) := by
  constructor
  · intro h
    rcases hE : s.exposeOrLoad fs with ⟨s1, r⟩
    rw [hE] at h
    dsimp only at h
    subst h
    simp [DatabaseInterface.exposeOrLoadThenSave, hE]
  · intro s1 v v' berr hE hbody hv'
    simp only [DatabaseInterface.exposeOrLoadThenSave, hE, hbody]
    simp [save_noarg_ok ({ s1 with database := v' } : DatabaseInterface) fs t hv',
          saveFilePath_update, exact_pointer_update]

/-- C5 witness: a factory that raises `NoDatabaseError` makes the scope
re-raise with no save (filesystem unchanged), while entry with a resident
`7` saves the mutated value on exit even though the body raised. -/
theorem expose_or_load_then_save_scope_witness :
    raisingFactoryStore.exposeOrLoadThenSave [] mutatingBody "12_00_00_Jan_01_2026"
      = ((raisingFactoryStore.exposeOrLoad []).1, [], some PyError.noDatabaseError) ∧
    sampleStore7.exposeOrLoadThenSave [] mutatingBody "12_00_00_Jan_01_2026" =
      ({ sampleStore7 with database := PyVal.dictCons "wow" (PyVal.str "haha") PyVal.dictNil },
       writeFile (writeFile [] (saveFilePath sampleStore7 "12_00_00_Jan_01_2026")
           (FileData.bin (PyVal.dictCons "wow" (PyVal.str "haha") PyVal.dictNil)))
         sampleStore7.exact_most_recent_save_file
         (FileData.text (saveFilePath sampleStore7 "12_00_00_Jan_01_2026")),
       some (PyError.otherError "ValueError")) :=
  ⟨(expose_or_load_then_save_scope raisingFactoryStore [] mutatingBody "12_00_00_Jan_01_2026").1
      (by decide),
   (expose_or_load_then_save_scope sampleStore7 [] mutatingBody "12_00_00_Jan_01_2026").2
      sampleStore7 (PyVal.int 7)
      (PyVal.dictCons "wow" (PyVal.str "haha") PyVal.dictNil)
      (some (PyError.otherError "ValueError"))
      (by decide) (by decide) (by decide)⟩

/-- C2 counterexample: two sequential saves whose formatted timestamps
coincide (two calls within the same clock second) write the same record
path, so after saving `1` and then `2` only one record file exists, the
first save's record has been overwritten with `2`, and N = 2 distinct
files were not produced. -/
theorem save_append_only_counterexample :
    (sampleStore.saveMany [] [(PyVal.int 1, "T"), (PyVal.int 2, "T")]).2.1
      = [("database/db_sv_T.pkl", FileData.bin (PyVal.int 2)),
         ("database/_most_recent_save.txt", FileData.text "database/db_sv_T.pkl")] ∧
    lookupFile (sampleStore.saveMany [] [(PyVal.int 1, "T"), (PyVal.int 2, "T")]).2.1
        "database/db_sv_T.pkl" ≠ some (FileData.bin (PyVal.int 1)) := by decide

/-- C2 (amended): N sequential successful `save()` calls whose formatted
timestamps are pairwise distinct (the record filename has one-second
resolution, so two saves in the same second share a path) produce N
distinct record files, none of which is later deleted or overwritten —
each still holds the value its save wrote — and the pointer file after
the last call holds exactly the Nth record's path. -/
theorem save_append_only (s : DatabaseInterface) (fs : FS) (L : List (PyVal × String))
    (hv : ∀ p ∈ L, p.1 ≠ PyVal.none)
    (hts : (L.map Prod.snd).Nodup)
    (hptr : ∀ p ∈ L, saveFilePath s p.2 ≠ s.exact_most_recent_save_file)
    (hne : L ≠ []) :
    (L.map fun p => saveFilePath s p.2).Nodup ∧
    (s.saveMany fs L).2.2 = Option.none ∧
    (∀ p ∈ L, lookupFile (s.saveMany fs L).2.1 (saveFilePath s p.2)
        = some (FileData.bin p.1)) ∧
    lookupFile (s.saveMany fs L).2.1 s.exact_most_recent_save_file
      = some (FileData.text (saveFilePath s (L.getLast hne).2)) := by
  have hpaths : (L.map fun p => saveFilePath s p.2).Nodup := by
    have h := hts.map (saveFilePath_inj s)
    rwa [List.map_map] at h
  exact ⟨hpaths, saveMany_no_error L s fs hv,
         saveMany_records L s fs hv hpaths hptr,
         saveMany_pointer L s fs hv hne⟩

/-- C2 witness: two saves at distinct seconds append two records and
repoint the pointer file to the second. -/
theorem save_append_only_witness :
    ((([(PyVal.int 1, "T1"), (PyVal.int 2, "T2")] : List (PyVal × String)).map
        fun p => saveFilePath sampleStore p.2).Nodup) ∧
    (sampleStore.saveMany [] [(PyVal.int 1, "T1"), (PyVal.int 2, "T2")]).2.2 = Option.none ∧
    (∀ p ∈ ([(PyVal.int 1, "T1"), (PyVal.int 2, "T2")] : List (PyVal × String)),
        lookupFile (sampleStore.saveMany [] [(PyVal.int 1, "T1"), (PyVal.int 2, "T2")]).2.1
          (saveFilePath sampleStore p.2) = some (FileData.bin p.1)) ∧
    lookupFile (sampleStore.saveMany [] [(PyVal.int 1, "T1"), (PyVal.int 2, "T2")]).2.1
        sampleStore.exact_most_recent_save_file
      = some (FileData.text "database/db_sv_T2.pkl") :=
  save_append_only sampleStore [] [(PyVal.int 1, "T1"), (PyVal.int 2, "T2")]
    (by decide) (by decide) (by decide) (by decide)
